import Mathlib

/-!
Shallow embedding of the gap-detection and idempotent dual-cluster
synchronization core of the ambient-weather-heiligers repository.

Sources embedded:
- main.js               (live mode: fetch-origin computation, per-cluster indexing)
- src/backfill/backfill.js  (backfill mode: validation, gap location, record selection)
- bin/runBackfill.js    (CLI entry: yargs gate and process-exit behavior)
- main_utils.js is absent from the repository snapshot (only its unit test and its
  callers are present), so prepareDataForBulkIndexing is modelled from the spec.

Machine integers (epoch milliseconds) are modelled as Int.  External
collaborators (the weather API, the Elasticsearch client, moment date
parsing, the filesystem) are modelled as explicit function parameters or
as already-parsed values; all control flow of the repository's own code
is embedded faithfully.
-/

namespace AmbientWeather

/-- One timestamped weather reading.  The repository treats readings as JSON
objects with a numeric dateutc field (epoch milliseconds) plus an open set of
sensor fields; the sensor fields are irrelevant to every claim, so they are
collapsed into one opaque payload string that preserves record identity. -/
structure Reading where
  dateutc : Int
  payload : String
deriving Repr, DecidableEq

/-- One entry of an Elasticsearch bulk payload: an action line naming the
target index alias, or a document line holding one reading. -/
inductive BulkEntry where
  | action (indexAlias : String)
  | doc (r : Reading)
deriving Repr, DecidableEq

/-- Index alias used by the bulk payload for a data type, as asserted by the
in-repo unit test src/mainFlow/main_utils.test.js. -/
def indexAlias (dataType : String) : String :=
  "all-ambient-weather-heiligers-" ++ dataType

/-- Modelled from the spec: main_utils.js is not in the repository snapshot, so
the record filter of prepareDataForBulkIndexing is taken from spec section 4.3
step 5 (filter the batch to readings with timestamp strictly greater than the
cluster's own resolved boundary) and from the no-duplicate invariant of
section 3, which match the in-repo unit test main_utils.test.js: a record is
kept when filterAfterDate is null/undefined (modelled as none) or when its
dateutc is strictly greater than filterAfterDate. -/
def keepRecord (filterAfterDate : Option Int) (r : Reading) : Bool :=
  match filterAfterDate with
  | none => true
  | some d => decide (d < r.dateutc)

/-- Modelled from the spec: main_utils.js is not in the repository snapshot.
The file contents named by fileNamesArray are modelled as already-parsed lists
of readings (one list per JSONL file).  Per the spec (section 4.4: serialize
to the storage engine's bulk-write format) and the in-repo unit test
main_utils.test.js, every kept record contributes two bulk entries: an action
line carrying the index alias for the data type, then the document itself;
records failing the strictly-newer filter contribute nothing. -/
def prepareDataForBulkIndexing (fileContents : List (List Reading))
    (dataType : String) (filterAfterDate : Option Int) : List BulkEntry :=
  (fileContents.flatten.filter (keepRecord filterAfterDate)).flatMap
    (fun r => [BulkEntry.action (indexAlias dataType), BulkEntry.doc r])

/-- Fetch-origin computation of main.js lines 121-136: with both cluster
boundaries present the origin is their minimum (Math.min); with exactly one
present it is that boundary; with neither present it is null (none), which
makes the fetcher fall back to its local-file-based default. -/
def computeFetchFromDate (prodLatestDate stagingLatestDate : Option Int) :
    Option Int :=
  match prodLatestDate, stagingLatestDate with
  | some p, some s => some (min p s)
  | some p, none => some p
  | none, some s => some s
  | none, none => none

/-- Result of findDataGapBoundaries (backfill.js lines 253-290), restricted to
the fields the claims are about. -/
structure GapBoundaries where
  gapFound : Bool
  startEpoch : Int
  endEpoch : Int
deriving Repr, DecidableEq

/-- Gap-boundary analysis of backfill.js lines 253-290.  The two cluster
queries are modelled by their results: the dateutc of the last stored document
before fromDate (none when absent) and of the first stored document after
toDate (none when absent).  startEpoch defaults to fromDate and endEpoch to
toDate when the corresponding document is absent.  The code sets gapFound to
true and clears it only when moment.duration(endEpoch - startEpoch).asMinutes()
is strictly less than 10; for epoch-millisecond integers in range this
comparison is exact, i.e. equivalent to endEpoch - startEpoch < 600000. -/
def findDataGapBoundaries (fromDate toDate : Int)
    (lastDocBefore firstDocAfter : Option Int) : GapBoundaries :=
  let startEpoch := lastDocBefore.getD fromDate
  let endEpoch := firstDocAfter.getD toDate
  let gapFound := !(decide (endEpoch - startEpoch < 600000))
  { gapFound := gapFound, startEpoch := startEpoch, endEpoch := endEpoch }

/-- Record filter used by both backfill data sources (backfill.js lines
391-394 and 496-499): keep exactly the records strictly inside the gap, so the
two boundary documents themselves are never re-included. -/
def inGapWindow (startEpoch endEpoch : Int) (r : Reading) : Bool :=
  decide (startEpoch < r.dateutc) && decide (r.dateutc < endEpoch)

/-- Local-archive loading of backfill.js lines 469-524, with file reading and
JSON parsing abstracted to the already-parsed per-file record arrays (files
that fail to read or parse, or whose JSON is not an array, are skipped by the
code and simply do not appear in the input list).  Each file is filtered to
the strict (startEpoch, endEpoch) window, the per-file survivors are
concatenated, and the result is sorted ascending by dateutc. -/
def loadDataFromLocalFiles (startEpoch endEpoch : Int)
    (files : List (List Reading)) : List Reading :=
  ((files.map (fun records => records.filter (inGapWindow startEpoch endEpoch))).flatten).mergeSort
    (fun a b => decide (a.dateutc ≤ b.dateutc))

/-- Record-selection stage of performBackfill (backfill.js lines 349-398):
local archive first; when the local archive yields no record in the window,
fall back to the flattened API batches filtered to the same strict window. -/
def performBackfillRecords (startEpoch endEpoch : Int)
    (localFiles apiBatches : List (List Reading)) : List Reading :=
  if (loadDataFromLocalFiles startEpoch endEpoch localFiles).length > 0 then
    loadDataFromLocalFiles startEpoch endEpoch localFiles
  else apiBatches.flatten.filter (inGapWindow startEpoch endEpoch)

/-- Per-cluster indexing outcome produced by indexToCluster (main.js lines
216-220): either success, or the caught error together with its message. -/
structure ClusterResult where
  cluster : String
  status : String
  error : Option String
deriving Repr, DecidableEq

/-- Outcome of fetchRawDataTester.getDataForDateRanges as discriminated by
main.js lines 143-164: the promise rejects (threw), or resolves to the literal
string "too early" (tooEarly), or to an object with dataFetchForDates and
dataFileNames keys (fetched, carrying the named files as parsed record lists),
or to anything else (noData). -/
inductive FetchOutcome where
  | threw (e : String)
  | tooEarly
  | fetched (files : List (List Reading))
  | noData
deriving Repr, DecidableEq

/-- One data-type pass inside indexToCluster (main.js lines 181-213): skip when
the file-name list is empty, otherwise build the bulk payload filtered to the
cluster's own latest date, skip when the payload is empty, otherwise submit one
bulk call whose effect is the bulkIndexDocuments parameter.  Returns the number
of bulk calls made (0 or 1), or the thrown error. -/
def indexDataType (dataType : String) (files : List (List Reading))
    (clusterLatestDate : Option Int)
    (bulkIndexDocuments : String → List BulkEntry → Except String Unit) :
    Except String Nat :=
  if files.isEmpty then Except.ok 0
  else if (prepareDataForBulkIndexing files dataType clusterLatestDate).isEmpty then
    Except.ok 0
  else
    match bulkIndexDocuments dataType
        (prepareDataForBulkIndexing files dataType clusterLatestDate) with
    | Except.ok _ => Except.ok 1
    | Except.error e => Except.error e

/-- indexToCluster (main.js lines 177-221): index imperial then metric data to
one cluster, filtering each payload by that cluster's own latest date; any
exception is caught at this boundary and converted into a status-error result,
never rethrown.  The second component counts the bulk calls attempted. -/
def indexToCluster (clusterName : String) (files : List (List Reading))
    (clusterLatestDate : Option Int)
    (bulkIndexDocuments : String → List BulkEntry → Except String Unit) :
    ClusterResult × Nat :=
  match indexDataType "imperial" files clusterLatestDate bulkIndexDocuments with
  | Except.error e =>
    ({ cluster := clusterName, status := "error", error := some e }, 1)
  | Except.ok n1 =>
    match indexDataType "metric" files clusterLatestDate bulkIndexDocuments with
    | Except.error e =>
      ({ cluster := clusterName, status := "error", error := some e }, n1 + 1)
    | Except.ok n2 =>
      ({ cluster := clusterName, status := "success", error := none }, n1 + n2)

/-- Dual-cluster indexing and final report of main.js lines 226-242: both
clusters are indexed independently (Promise.allSettled over two indexToCluster
calls, each of which always fulfills), main.js aggregates the two results and
returns the string Done.  The trailing Nat is the total number of bulk calls. -/
def indexBothClusters (files : List (List Reading))
    (prodLatestDate stagingLatestDate : Option Int)
    (bulkProd bulkStaging : String → List BulkEntry → Except String Unit) :
    (List ClusterResult × String) × Nat :=
  let rp := indexToCluster "PRODUCTION" files prodLatestDate bulkProd
  let rs := indexToCluster "STAGING" files stagingLatestDate bulkStaging
  (([rp.1, rs.1], "Done"), rp.2 + rs.2)

/-- Live-mode run of main.js lines 121-242, parameterized by the resolved
cluster boundaries, the fetch effect, and each cluster's bulk-write effect.
The fetch origin is computed from the two boundaries; a rejected fetch is
rethrown by the catch at lines 168-173 (result Except.error, zero bulk calls);
the tooEarly sentinel and an unrecognized result shape both leave the
file-name lists empty; in every non-throwing case both clusters are indexed
and main returns Done.  The trailing Nat counts bulk calls made. -/
def mainRun (prodLatestDate stagingLatestDate : Option Int)
    (fetch : Option Int → FetchOutcome)
    (bulkProd bulkStaging : String → List BulkEntry → Except String Unit) :
    Except String (List ClusterResult × String) × Nat :=
  let fetchFromDate := computeFetchFromDate prodLatestDate stagingLatestDate
  match fetch fetchFromDate with
  | FetchOutcome.threw e => (Except.error e, 0)
  | FetchOutcome.tooEarly =>
    let run := indexBothClusters [] prodLatestDate stagingLatestDate bulkProd bulkStaging
    (Except.ok run.1, run.2)
  | FetchOutcome.fetched files =>
    let run := indexBothClusters files prodLatestDate stagingLatestDate bulkProd bulkStaging
    (Except.ok run.1, run.2)
  | FetchOutcome.noData =>
    let run := indexBothClusters [] prodLatestDate stagingLatestDate bulkProd bulkStaging
    (Except.ok run.1, run.2)

/-- Parsed CLI arguments of the backfill entry (yargs option object).  The
from/to options are strings in the source; a missing option is none. -/
structure Args where
  prod : Bool := false
  staging : Bool := false
  both : Bool := false
  yes : Bool := false
  fromStr : Option String := none
  toStr : Option String := none
deriving Repr, DecidableEq

/-- Result of validateArgs (backfill.js lines 138-194): either invalid with an
error message, or the cluster list (cluster key paired with display name) plus
the parsed epoch range. -/
inductive ValidationResult where
  | invalid (error : String)
  | valid (clusters : List (String × String)) (fromDate toDate : Int)
deriving Repr, DecidableEq

/-- validateArgs (backfill.js lines 138-194).  moment-based date parsing is an
external collaborator, modelled by the parseDate parameter (none for an
unparseable string).  Checks run in source order: cluster-flag presence, then
date presence, then parseability, then fromDate < toDate. -/
def validateArgs (parseDate : String → Option Int) (args : Args) :
    ValidationResult :=
  if !args.prod && !args.staging && !args.both then
    ValidationResult.invalid "Must specify --prod, --staging, or --both"
  else
    let clusters :=
      if args.both then [("ES", "PRODUCTION"), ("STAGING", "STAGING")]
      else if args.prod then [("ES", "PRODUCTION")]
      else [("STAGING", "STAGING")]
    match args.fromStr, args.toStr with
    | some fromS, some toS =>
      match parseDate fromS, parseDate toS with
      | some fromEpoch, some toEpoch =>
        if fromEpoch ≥ toEpoch then
          ValidationResult.invalid
            (s!"Start date must be before end date. From: {fromS}, To: {toS}")
        else ValidationResult.valid clusters fromEpoch toEpoch
      | _, _ =>
        ValidationResult.invalid
          (s!"Invalid date format. Use YYYY-MM-DD. From: {fromS}, To: {toS}")
    | _, _ => ValidationResult.invalid "Must specify both --from and --to dates"

/-- Per-cluster backfill outcome object (status plus the optional fields the
various return sites of backfill.js populate). -/
structure BackfillResult where
  status : String
  cluster : Option String := none
  message : Option String := none
  error : Option String := none
deriving Repr, DecidableEq

/-- backfillSingleCluster (backfill.js lines 97-131): the whole per-cluster
flow (client creation, gap search, confirmation, backfill) sits inside one
try/catch whose catch converts any exception into a status-error result object
that never escapes.  The body's behavior is abstracted as an Except value. -/
def backfillSingleCluster (clusterName : String)
    (body : Except String BackfillResult) : BackfillResult :=
  match body with
  | Except.ok r => r
  | Except.error e =>
    { status := "error", cluster := some clusterName, error := some e }

/-- Top-level result object of runBackfill (backfill.js lines 20-85), with the
fields relevant to the claims.  Dual-cluster mode returns status success with
mode dual-cluster and the per-cluster results; single-cluster mode returns the
single cluster's result; a validation failure returns status error. -/
structure RunResult where
  status : String
  error : Option String := none
  mode : Option String := none
  results : List (String × BackfillResult) := []
deriving Repr, DecidableEq

/-- runBackfill (backfill.js lines 20-85), with each cluster's remote work
abstracted as the body effect (keyed by cluster display name).  After
validation, dual-cluster mode runs backfillSingleCluster sequentially for each
cluster, records every outcome as fulfilled, and returns status success
unconditionally; single-cluster mode returns that cluster's result.  The
clusters list produced by validateArgs is never empty, so the empty-list arm
is unreachable; it mirrors runBackfill's own outer catch (status error). -/
def runBackfill (parseDate : String → Option Int)
    (body : String → Except String BackfillResult) (args : Args) : RunResult :=
  match validateArgs parseDate args with
  | ValidationResult.invalid e => { status := "error", error := some e }
  | ValidationResult.valid clusters _ _ =>
    if 1 < clusters.length then
      let results := clusters.map
        (fun c => (c.2, backfillSingleCluster c.2 (body c.2)))
      { status := "success", mode := some "dual-cluster", results := results }
    else
      match clusters with
      | [] => { status := "error", error := some "unreachable" }
      | c :: _ =>
        let r := backfillSingleCluster c.2 (body c.2)
        { status := r.status, error := r.error, results := [(c.2, r)] }

/-- Outcome of the bin/runBackfill.js entry process: the yargs gate fails
(missing or conflicting cluster flags via the check callback, or a missing
demanded from/to option), which prints a usage message and exits non-zero; or
the IIFE resolves with runBackfill's result, in which case Node exits zero
regardless of the status field inside that result. -/
inductive BinOutcome where
  | usageFailure
  | resolved (r : RunResult)
deriving Repr, DecidableEq

/-- The yargs gate of bin/runBackfill.js lines 8-56: exactly one of
prod/staging/both must be set (the check callback throws otherwise) and both
from and to are demanded options. -/
def yargsAccepts (args : Args) : Bool :=
  let clusterFlags := (if args.prod then 1 else 0) + (if args.staging then 1 else 0)
    + (if args.both then 1 else 0)
  clusterFlags == 1 && args.fromStr.isSome && args.toStr.isSome

/-- The bin/runBackfill.js entry (lines 5-64): parse arguments through yargs,
then await runBackfill and log its result.  runBackfill never rejects (its
body is wrapped in its own try/catch), so the catch-and-rethrow at lines 60-63
is unreachable and the IIFE resolves whenever the yargs gate passes. -/
def binRun (parseDate : String → Option Int)
    (body : String → Except String BackfillResult) (args : Args) : BinOutcome :=
  if yargsAccepts args then BinOutcome.resolved (runBackfill parseDate body args)
  else BinOutcome.usageFailure

/-- Process exit classification for a bin outcome: a yargs usage failure exits
non-zero; a resolved IIFE lets Node exit zero. -/
def exitsNonZero : BinOutcome → Bool
  | BinOutcome.usageFailure => true
  | BinOutcome.resolved _ => false

/-- Bulk-write effect that always succeeds. -/
def bulkOk : String → List BulkEntry → Except String Unit :=
  fun _ _ => Except.ok ()

/-- Bulk-write effect that always throws, standing for a cluster whose commit
fails. -/
def bulkBoom : String → List BulkEntry → Except String Unit :=
  fun _ _ => Except.error "boom"

/-- A one-file fetched batch holding a single reading. -/
def sampleFiles : List (List Reading) :=
  [[{ dateutc := 1700000600000, payload := "r1" }]]

/-- Fetch effect that always returns the too-early sentinel. -/
def fetchTooEarly : Option Int → FetchOutcome :=
  fun _ => FetchOutcome.tooEarly

/-- Fetch effect whose promise always rejects. -/
def fetchThrew : Option Int → FetchOutcome :=
  fun _ => FetchOutcome.threw "ECONNRESET"

/-- Fetch effect that always resolves with the sample batch. -/
def fetchSample : Option Int → FetchOutcome :=
  fun _ => FetchOutcome.fetched sampleFiles

/-- Date parser recognizing only the one well-formed date of the invalid-date
scenario. -/
def c9Parse : String → Option Int :=
  fun s => if s == "2024-01-31" then some 1706659200000 else none

/-- Per-cluster body effect that trivially succeeds (never reached in the
invalid-argument scenario). -/
def c9Body : String → Except String BackfillResult :=
  fun _ => Except.ok { status := "success" }

/-- A second, observably different per-cluster body effect, used to show the
validation-failure result does not depend on any remote behavior. -/
def c9BodyAlt : String → Except String BackfillResult :=
  fun _ => Except.error "remote exploded"

/-- Backfill invocation with a well-formed cluster flag but an unparseable
from date. -/
def c9Args : Args :=
  { prod := true, fromStr := some "invalid-date", toStr := some "2024-01-31" }

/-- Date parser recognizing the two dates of the dual-cluster scenario. -/
def c10Parse : String → Option Int :=
  fun s =>
    if s == "2024-01-01" then some 1704067200000
    else if s == "2024-01-31" then some 1706659200000
    else none

/-- Per-cluster body effect that fails for every cluster. -/
def c10ErrBody : String → Except String BackfillResult :=
  fun _ => Except.error "cluster down"

/-- Valid dual-cluster backfill invocation. -/
def c10Args : Args :=
  { both := true, fromStr := some "2024-01-01", toStr := some "2024-01-31" }

/-- A bulk effect that always succeeds makes every indexDataType pass succeed,
making zero or one bulk call. -/
theorem indexDataType_ok (dataType : String) (files : List (List Reading))
    (d : Option Int) (bulk : String → List BulkEntry → Except String Unit)
    (h : ∀ dt p, bulk dt p = Except.ok ()) :
    ∃ n, indexDataType dataType files d bulk = Except.ok n := by
  unfold indexDataType
  split
  · exact ⟨0, rfl⟩
  · split
    · exact ⟨0, rfl⟩
    · refine ⟨1, ?_⟩
      rw [h]

/-- A cluster whose bulk effect always succeeds reports status success. -/
theorem indexToCluster_fst_success (clusterName : String)
    (files : List (List Reading)) (d : Option Int)
    (bulk : String → List BulkEntry → Except String Unit)
    (h : ∀ dt p, bulk dt p = Except.ok ()) :
    (indexToCluster clusterName files d bulk).1 =
      { cluster := clusterName, status := "success", error := none } := by
  obtain ⟨n1, h1⟩ := indexDataType_ok "imperial" files d bulk h
  obtain ⟨n2, h2⟩ := indexDataType_ok "metric" files d bulk h
  unfold indexToCluster
  rw [h1, h2]

/-- A cluster whose bulk effect always throws, fed a non-empty file list whose
imperial payload is non-empty, reports status error with the thrown message. -/
theorem indexToCluster_fst_error (clusterName : String)
    (files : List (List Reading)) (d : Option Int)
    (bulk : String → List BulkEntry → Except String Unit) (e : String)
    (hf : files.isEmpty = false)
    (hp : (prepareDataForBulkIndexing files "imperial" d).isEmpty = false)
    (h : ∀ dt p, bulk dt p = Except.error e) :
    (indexToCluster clusterName files d bulk).1 =
      { cluster := clusterName, status := "error", error := some e } := by
  have h1 : indexDataType "imperial" files d bulk = Except.error e := by
    unfold indexDataType
    rw [hf, hp, h]
    rfl
  unfold indexToCluster
  rw [h1]

/-- C1: the bulk payload committed to a cluster keeps exactly the readings
whose timestamp is strictly greater than that cluster's own resolved boundary;
in particular a reading with dateutc less than or equal to the boundary never
appears in the payload.  (indexToCluster passes each cluster its own
clusterLatestDate as the filterAfterDate of this payload.) -/
theorem c1_commit_filter_strictly_newer (files : List (List Reading))
    (dataType : String) (d : Int) (r : Reading) :
    BulkEntry.doc r ∈ prepareDataForBulkIndexing files dataType (some d) ↔
      r ∈ files.flatten ∧ d < r.dateutc := by
  simp [prepareDataForBulkIndexing, keepRecord, List.mem_flatMap,
    List.mem_filter]
  constructor
  · rintro ⟨l, hl, hr, hlt⟩
    exact ⟨⟨l, hl, hr⟩, hlt⟩
  · rintro ⟨⟨l, hl, hr⟩, hlt⟩
    exact ⟨l, hl, hr, hlt⟩

/-- C2 counterexample: at a gap of exactly 10 minutes (endEpoch - startEpoch =
600000 ms) findDataGapBoundaries declares the gap found, contradicting the
claim that exactly 10 minutes yields found = false. -/
theorem c2_counterexample :
    (findDataGapBoundaries 0 600000 none none).endEpoch
        - (findDataGapBoundaries 0 600000 none none).startEpoch = 600000 ∧
      (findDataGapBoundaries 0 600000 none none).gapFound = true := by
  exact ⟨by decide, by decide⟩

/-- C2 amended: findDataGapBoundaries declares a gap found exactly when
endEpoch - startEpoch is at least 10 minutes (600000 ms) — the code clears
gapFound only for durations strictly below 10 minutes — so exactly 10 minutes
yields found = true, 10 minutes + 1 ms yields found = true, and anything
strictly below 10 minutes yields found = false. -/
theorem c2_gap_threshold (fromDate toDate : Int)
    (lastDocBefore firstDocAfter : Option Int) :
    ((findDataGapBoundaries fromDate toDate lastDocBefore firstDocAfter).gapFound
        = true ↔
      600000 ≤
        (findDataGapBoundaries fromDate toDate lastDocBefore firstDocAfter).endEpoch
          - (findDataGapBoundaries fromDate toDate lastDocBefore firstDocAfter).startEpoch) ∧
    (findDataGapBoundaries 0 600001 none none).gapFound = true ∧
    (findDataGapBoundaries 0 599999 none none).gapFound = false := by
  refine ⟨?_, by decide, by decide⟩
  simp [findDataGapBoundaries, not_lt]

/-- C3: in live mode with both cluster boundaries present, the single fetch
origin is the minimum (oldest) of the two boundaries; for boundaries 100 and
200 the computed origin is 100. -/
theorem c3_safe_origin_is_oldest (a b : Int) :
    computeFetchFromDate (some a) (some b) = some (min a b) ∧
      min a b ≤ a ∧ min a b ≤ b ∧ (min a b = a ∨ min a b = b) ∧
      computeFetchFromDate (some 100) (some 200) = some 100 :=
  ⟨rfl, min_le_left a b, min_le_right a b, min_choice a b, by decide⟩

/-- C4 counterexample: with the production boundary absent and the staging
boundary 200, main.js uses 200 as the fetch origin — it does not fall back to
the local-archive-driven default (none) as the claim states. -/
theorem c4_counterexample :
    computeFetchFromDate none (some 200) = some 200 ∧
      computeFetchFromDate none (some 200) ≠ none :=
  ⟨rfl, by decide⟩

/-- C4 amended: when exactly one cluster's boundary resolves as present, the
fetch origin is that single present boundary; the local-archive-driven
fallback (origin none) is used only when both boundaries are absent. -/
theorem c4_single_present_boundary_used (a b : Int) :
    computeFetchFromDate none (some b) = some b ∧
      computeFetchFromDate (some a) none = some a ∧
      computeFetchFromDate none none = none :=
  ⟨rfl, rfl, rfl⟩

/-- C5: when the production cluster's commit throws and the staging cluster's
commit succeeds, the exception is caught at the per-cluster boundary: the
final report shows PRODUCTION with status error (carrying the message) and
STAGING with status success, and the run still completes normally with main
returning Done. -/
theorem c5_cluster_isolation (p s : Option Int) (files : List (List Reading))
    (fetch : Option Int → FetchOutcome)
    (bulkProd bulkStaging : String → List BulkEntry → Except String Unit)
    (e : String)
    (hfetch : fetch (computeFetchFromDate p s) = FetchOutcome.fetched files)
    (hf : files.isEmpty = false)
    (hp : (prepareDataForBulkIndexing files "imperial" p).isEmpty = false)
    (hbp : ∀ dt pay, bulkProd dt pay = Except.error e)
    (hbs : ∀ dt pay, bulkStaging dt pay = Except.ok ()) :
    (mainRun p s fetch bulkProd bulkStaging).1 =
      Except.ok
        ([{ cluster := "PRODUCTION", status := "error", error := some e },
          { cluster := "STAGING", status := "success", error := none }],
         "Done") := by
  simp only [mainRun, hfetch, indexBothClusters]
  rw [indexToCluster_fst_error "PRODUCTION" files p bulkProd e hf hp hbp,
    indexToCluster_fst_success "STAGING" files s bulkStaging hbs]

/-- C5 witness: concrete run in which the production bulk write always throws
boom and the staging bulk write succeeds. -/
theorem c5_witness :
    (mainRun (some 1700000000000) (some 1700000000000) fetchSample bulkBoom
        bulkOk).1 =
      Except.ok
        ([{ cluster := "PRODUCTION", status := "error", error := some "boom" },
          { cluster := "STAGING", status := "success", error := none }],
         "Done") :=
  c5_cluster_isolation (some 1700000000000) (some 1700000000000) sampleFiles
    fetchSample bulkBoom bulkOk "boom" rfl rfl rfl (fun _ _ => rfl)
    (fun _ _ => rfl)

/-- C7: when the fetcher returns the too-early sentinel, the run ends
successfully having committed nothing: zero bulk calls are made for either
cluster, no error is raised, both clusters report success and main returns
Done. -/
theorem c7_too_early_commits_nothing (p s : Option Int)
    (fetch : Option Int → FetchOutcome)
    (bulkProd bulkStaging : String → List BulkEntry → Except String Unit)
    (hfetch : fetch (computeFetchFromDate p s) = FetchOutcome.tooEarly) :
    mainRun p s fetch bulkProd bulkStaging =
      (Except.ok
        ([{ cluster := "PRODUCTION", status := "success", error := none },
          { cluster := "STAGING", status := "success", error := none }],
         "Done"), 0) := by
  simp only [mainRun, hfetch]
  rfl

/-- C7 witness: concrete too-early run. -/
theorem c7_witness :
    mainRun none none fetchTooEarly bulkOk bulkOk =
      (Except.ok
        ([{ cluster := "PRODUCTION", status := "success", error := none },
          { cluster := "STAGING", status := "success", error := none }],
         "Done"), 0) :=
  c7_too_early_commits_nothing none none fetchTooEarly bulkOk bulkOk rfl

/-- C8: a hard fetch failure is fatal to the run: the error is rethrown to the
caller and zero bulk calls are made, so no commit to any cluster is attempted
after the failure. -/
theorem c8_fetch_hard_failure_fatal (p s : Option Int)
    (fetch : Option Int → FetchOutcome)
    (bulkProd bulkStaging : String → List BulkEntry → Except String Unit)
    (e : String)
    (hfetch : fetch (computeFetchFromDate p s) = FetchOutcome.threw e) :
    mainRun p s fetch bulkProd bulkStaging = (Except.error e, 0) := by
  simp only [mainRun, hfetch]

/-- C8 witness: concrete run whose fetch promise rejects. -/
theorem c8_witness :
    mainRun none none fetchThrew bulkOk bulkOk =
      (Except.error "ECONNRESET", 0) :=
  c8_fetch_hard_failure_fatal none none fetchThrew bulkOk bulkOk "ECONNRESET"
    rfl

/-- C6: every reading selected by the backfill record-selection stage (local
archive or API fallback) lies strictly inside the gap window, so the boundary
documents themselves are never re-included, and the number of selected
readings equals the number of source readings strictly between the two
boundary timestamps. -/
theorem c6_backfill_strict_window (s e : Int)
    (lf ab : List (List Reading)) :
    (∀ r : Reading, r ∈ loadDataFromLocalFiles s e lf ↔
        (r ∈ lf.flatten ∧ s < r.dateutc ∧ r.dateutc < e)) ∧
    (performBackfillRecords s e lf ab).all (inGapWindow s e) = true ∧
    (performBackfillRecords s e lf ab).length =
      (if (loadDataFromLocalFiles s e lf).length > 0 then
        (lf.flatten.filter (inGapWindow s e)).length
       else (ab.flatten.filter (inGapWindow s e)).length) := by
  have hflat : (lf.map (fun records => records.filter (inGapWindow s e))).flatten
      = lf.flatten.filter (inGapWindow s e) := (List.filter_flatten _ _).symm
  have hperm : (loadDataFromLocalFiles s e lf).Perm
      (lf.flatten.filter (inGapWindow s e)) := by
    unfold loadDataFromLocalFiles
    rw [hflat]
    exact List.mergeSort_perm _ _
  have hmem : ∀ r : Reading, r ∈ loadDataFromLocalFiles s e lf ↔
      (r ∈ lf.flatten ∧ s < r.dateutc ∧ r.dateutc < e) := by
    intro r
    rw [hperm.mem_iff, List.mem_filter]
    simp [inGapWindow]
  refine ⟨hmem, ?_, ?_⟩
  · rw [List.all_eq_true]
    intro r hr
    unfold performBackfillRecords at hr
    split at hr
    · have hw := (hmem r).mp hr
      simp [inGapWindow]
      exact ⟨hw.2.1, hw.2.2⟩
    · rw [List.mem_filter] at hr
      exact hr.2
  · by_cases hc : (loadDataFromLocalFiles s e lf).length > 0
    · unfold performBackfillRecords
      rw [if_pos hc, if_pos hc]
      exact hperm.length_eq
    · unfold performBackfillRecords
      rw [if_neg hc, if_neg hc]

/-- C9 counterexample: an invocation with a valid cluster flag but an
unparseable from date passes the yargs gate, is rejected by validateArgs, and
the entry process resolves normally — the process exit is zero, contradicting
the claim that every invalid-argument invocation exits non-zero. -/
theorem c9_counterexample :
    binRun c9Parse c9Body c9Args =
      BinOutcome.resolved
        { status := "error",
          error := some
            "Invalid date format. Use YYYY-MM-DD. From: invalid-date, To: 2024-01-31" } ∧
    exitsNonZero (binRun c9Parse c9Body c9Args) = false :=
  ⟨rfl, rfl⟩

/-- C9 amended: every backfill invocation rejected by validateArgs (no cluster
flag, missing date, unparseable date, or start at-or-after end) yields a
status-error result with a clear message before any remote call — the result
is independent of every per-cluster remote behavior, so no storage client is
created and no query is issued — but the process exit code is non-zero only
when the yargs gate itself rejects the flags (missing or conflicting cluster
flags, missing from/to); when the gate passes (unparseable date, start ≥ end)
the entry resolves normally and the process exits zero. -/
theorem c9_validation_rejected_before_remote_call
    (parseDate : String → Option Int)
    (body bodyAlt : String → Except String BackfillResult) (args : Args)
    (e : String)
    (h : validateArgs parseDate args = ValidationResult.invalid e) :
    runBackfill parseDate body args = { status := "error", error := some e } ∧
    runBackfill parseDate body args = runBackfill parseDate bodyAlt args ∧
    (yargsAccepts args = false →
      exitsNonZero (binRun parseDate body args) = true) ∧
    (yargsAccepts args = true →
      exitsNonZero (binRun parseDate body args) = false) := by
  have h1 : runBackfill parseDate body args =
      { status := "error", error := some e } := by
    unfold runBackfill
    rw [h]
  have h2 : runBackfill parseDate bodyAlt args =
      { status := "error", error := some e } := by
    unfold runBackfill
    rw [h]
  refine ⟨h1, h1.trans h2.symm, ?_, ?_⟩
  · intro hy
    simp [binRun, hy, exitsNonZero]
  · intro hy
    simp [binRun, hy, exitsNonZero]

/-- C9 witness: the unparseable-date invocation instantiates the amended
theorem: error-status result, and zero exit since the yargs gate passes. -/
theorem c9_witness :
    runBackfill c9Parse c9Body c9Args =
      { status := "error",
        error := some
          "Invalid date format. Use YYYY-MM-DD. From: invalid-date, To: 2024-01-31" } ∧
    exitsNonZero (binRun c9Parse c9Body c9Args) = false :=
  ⟨(c9_validation_rejected_before_remote_call c9Parse c9Body c9BodyAlt c9Args
      _ rfl).1,
   (c9_validation_rejected_before_remote_call c9Parse c9Body c9BodyAlt c9Args
      _ rfl).2.2.2 rfl⟩

/-- C10: every dual-cluster backfill invocation that passes validation
returns a top-level result with status success and mode dual-cluster, for
every possible per-cluster behavior — including bodies that fail for every
cluster — because backfillSingleCluster converts every exception into a
per-cluster result object that never escapes. -/
theorem c10_dual_cluster_top_level_success (parseDate : String → Option Int)
    (body : String → Except String BackfillResult) (args : Args)
    (clusters : List (String × String)) (fromEpoch toEpoch : Int)
    (hv : validateArgs parseDate args =
      ValidationResult.valid clusters fromEpoch toEpoch)
    (hlen : 1 < clusters.length) :
    (runBackfill parseDate body args).status = "success" ∧
    (runBackfill parseDate body args).mode = some "dual-cluster" := by
  unfold runBackfill
  rw [hv]
  dsimp only
  rw [if_pos hlen]
  exact ⟨rfl, rfl⟩

/-- C10 witness: a concrete both-clusters invocation whose every per-cluster
body throws still reports top-level success, with both per-cluster entries
recording status error. -/
theorem c10_witness :
    (runBackfill c10Parse c10ErrBody c10Args).status = "success" ∧
    (runBackfill c10Parse c10ErrBody c10Args).mode = some "dual-cluster" ∧
    (runBackfill c10Parse c10ErrBody c10Args).results.all
      (fun pr => pr.2.status == "error") = true :=
  ⟨(c10_dual_cluster_top_level_success c10Parse c10ErrBody c10Args
      [("ES", "PRODUCTION"), ("STAGING", "STAGING")] 1704067200000
      1706659200000 rfl (by decide)).1,
   (c10_dual_cluster_top_level_success c10Parse c10ErrBody c10Args
      [("ES", "PRODUCTION"), ("STAGING", "STAGING")] 1704067200000
      1706659200000 rfl (by decide)).2,
   by decide⟩

end AmbientWeather
